import Mathlib

/-!
Shallow embedding of `plugins/modules/zabbix_screen.py` (class `Screen` and
the per-screen reconciliation loop of `main`).

Modelling conventions:
* Remote Zabbix state is a `World`: the host groups, hosts, graphs, screens
  and screen items the API would report.
* Names (screen names, graph names, host names, group names) are modelled as
  `List Nat` (abstract character sequences); the Zabbix `search` parameter is
  substring matching, modelled with `List.isInfixOf`, while the `filter`
  parameter is exact equality.
* Write RPCs (`screen.create`, `screen.update`, `screen.delete`,
  `screenitem.create`, `screenitem.delete`) are reified as an `Action` list in
  call order; read RPCs are evaluated against the `World`.
* `module.fail_json` is `Except.error`; machine integers are `Nat`/`Int`
  (Python ints are unbounded, `//` on the relevant non-negative operands is
  `Nat` division).
-/

namespace ZabbixScreen

/-- An abstract name (character sequence). -/
abbrev ZName := List Nat

/-- A host group as reported by `hostgroup.get`. -/
structure ZHostGroup where
  groupid : Nat
  name : ZName
deriving DecidableEq

/-- A host as reported by `host.get` (with `selectGroups`). -/
structure ZHost where
  hostid : Nat
  name : ZName
  groups : List Nat
  monitored : Bool
deriving DecidableEq

/-- A graph as reported by `graph.get`. -/
structure ZGraph where
  graphid : Nat
  name : ZName
  hostid : Nat
deriving DecidableEq

/-- A screen as reported by `screen.get`. -/
structure ZScreen where
  screenid : Nat
  name : ZName
deriving DecidableEq

/-- A screen item as reported by `screenitem.get`. -/
structure ZScreenItem where
  screenitemid : Nat
  screenid : Nat
  resourceid : Nat
deriving DecidableEq

/-- The remote Zabbix state visible through the API. `nextid` is the id the
remote side would assign to a newly created screen. -/
structure World where
  hostgroups : List ZHostGroup
  hosts : List ZHost
  graphs : List ZGraph
  screens : List ZScreen
  screenitems : List ZScreenItem
  nextid : Nat
deriving DecidableEq

/-- The `state` suboption of a screen entry. -/
inductive SState where
  | present
  | absent
deriving DecidableEq

/-- One entry of the module's `screens` parameter. -/
structure ScreenSpec where
  screen_name : ZName
  host_group : List ZName
  state : SState
  graph_names : List ZName
  graph_width : Option Int
  graph_height : Option Int
  graphs_in_row : Nat
  sort : Bool
deriving DecidableEq

/-- The data dict passed to `ScreenItem.create` (the fixed fields
`resourcetype`, `elements`, `valign`, `halign`, `style`, `dynamic`,
`sort_triggers` are constant 0 in the source and omitted). -/
structure ItemData where
  screenid : Nat
  resourceid : Nat
  width : Int
  height : Int
  x : Nat
  y : Nat
  colspan : Nat
  rowspan : Nat
deriving DecidableEq

/-- A write RPC issued against the remote API, in call order. -/
inductive Action where
  | screenCreate (name : ZName) (hsize vsize : Nat)
  | screenUpdate (screenid hsize vsize : Nat)
  | screenDelete (screenid : Nat)
  | itemCreate (data : ItemData)
  | itemDeleteAll (ids : List Nat)
deriving DecidableEq

/-- How one screen entry is reported by `main` (created / changed / deleted
list membership; `unchanged` = appended to none of them). -/
inductive Outcome where
  | created
  | changed
  | deleted
  | unchanged
deriving DecidableEq

/-! ## Read RPCs evaluated against the `World` -/

/-- `needle.isSubstrOf hay`: `needle` occurs contiguously inside `hay`. This
is the Zabbix `search` parameter's matching semantics (substring search). -/
def isSubstrOf (needle : ZName) : ZName → Bool
  | [] => needle.isEmpty
  | a :: rest => needle.isPrefixOf (a :: rest) || isSubstrOf needle rest

/-- `zapi.hostgroup.get` with `filter name = group_names`: exact name match. -/
def hostgroup_get (w : World) (group_names : List ZName) : List ZHostGroup :=
  w.hostgroups.filter (fun g => group_names.contains g.name)

/-- `zapi.host.get` with `groupids = group_ids, monitored_hosts = 1`:
monitored hosts belonging to at least one of the given groups. -/
def host_get (w : World) (group_ids : List Nat) : List ZHost :=
  w.hosts.filter (fun h => h.monitored && h.groups.any (fun g => group_ids.contains g))

/-- `zapi.screen.get` with `search name = screen_name`: substring match. -/
def screen_get_search (w : World) (screen_name : ZName) : List ZScreen :=
  w.screens.filter (fun s => isSubstrOf screen_name s.name)

/-- `zapi.graph.get` with `search name = graph_name, hostids = host_id`. -/
def graph_get_search (w : World) (graph_name : ZName) (host_id : Nat) : List ZGraph :=
  w.graphs.filter (fun g => g.hostid == host_id && isSubstrOf graph_name g.name)

/-- `zapi.screenitem.get` with `screenids = screen_id`. -/
def screenitem_get (w : World) (screen_id : Nat) : List ZScreenItem :=
  w.screenitems.filter (fun it => it.screenid == screen_id)

/-! ## `class Screen` methods -/

/-- `Screen.get_host_group_ids`. -/
def get_host_group_ids (w : World) (group_names : List ZName) : Except String (List Nat) :=
  if group_names = [] then .error "group_name is required"
  else
    let hostGroup_list := hostgroup_get w group_names
    if hostGroup_list = [] then .error "Host group not found"
    else .ok (hostGroup_list.map (fun g => g.groupid))

/-- Boolean "less or equal" on names, lexicographic (Python tuple/string
comparison used by `sorted` with the name key). -/
def nameLe : ZName → ZName → Bool
  | [], _ => true
  | _ :: _, [] => false
  | a :: as, b :: bs => if a < b then true else if a = b then nameLe as bs else false

/-- Stable insertion of a host into a name-sorted host list. -/
def insertByName (h : ZHost) : List ZHost → List ZHost
  | [] => [h]
  | h2 :: rest =>
    if nameLe h2.name h.name then h2 :: insertByName h rest
    else h :: h2 :: rest

/-- `sorted(host_list, key=lambda name: name['name'])`: stable sort by name. -/
def sortHostsByName : List ZHost → List ZHost
  | [] => []
  | h :: rest => insertByName h (sortHostsByName rest)

/-- `Screen.get_host_ids_by_group_ids`: the monitored hosts belonging to all
given groups (`set(group_ids).issubset(host_group_ids)` filter). -/
def get_host_ids_by_group_ids (w : World) (group_ids : List Nat) (sort : Bool) :
    Except String (List Nat) :=
  let host_list := host_get w group_ids
  if host_list = [] then .error "No hosts in the all groups"
  else
    let host_list := if sort then sortHostsByName host_list else host_list
    .ok ((host_list.filter (fun h => group_ids.all (fun g => h.groups.contains g))).map
      (fun h => h.hostid))

/-- `Screen.get_screen_id`: empty name is fatal; otherwise the first element
of the `search` result, or `none` when the result is empty. -/
def get_screen_id (w : World) (screen_name : ZName) : Except String (Option Nat) :=
  if screen_name = [] then .error "screen_name is required"
  else
    match screen_get_search w screen_name with
    | s :: _ => .ok (some s.screenid)
    | [] => .ok none

/-- `Screen.get_graphs_by_host_id`: for each requested graph name, all graph
ids on the host matching it by `search`, concatenated in graph-name order. -/
def get_graphs_by_host_id (w : World) (graph_name_list : List ZName) (host_id : Nat) :
    List Nat :=
  graph_name_list.flatMap (fun gn => (graph_get_search w gn host_id).map (fun g => g.graphid))

/-- The loop of `Screen.get_graph_ids`: accumulates graph ids host by host and
keeps `vsize = max(1, per-host sizes seen so far)`. -/
def get_graph_ids_go (w : World) (graph_name_list : List ZName) :
    List Nat → List Nat → Nat → List Nat × Nat
  | [], acc, vsize => (acc, vsize)
  | host :: rest, acc, vsize =>
    let graph_id_list := get_graphs_by_host_id w graph_name_list host
    if 0 < graph_id_list.length then
      get_graph_ids_go w graph_name_list rest (acc ++ graph_id_list)
        (if vsize < graph_id_list.length then graph_id_list.length else vsize)
    else
      get_graph_ids_go w graph_name_list rest acc vsize

/-- `Screen.get_graph_ids`: all graph ids over the host list, and the `vsize`
seed (initial value 1). -/
def get_graph_ids (w : World) (hosts : List Nat) (graph_name_list : List ZName) :
    List Nat × Nat :=
  get_graph_ids_go w graph_name_list hosts [] 1

/-- `Screen.get_screen_items`. -/
def get_screen_items (w : World) (screen_id : Nat) : List ZScreenItem :=
  screenitem_get w screen_id

/-- `Screen.delete_screen_items`: empty id list is a success no-op; otherwise
a `screenitem.delete` call is issued iff the screen currently has items. -/
def delete_screen_items (w : World) (screen_id : Nat) (screen_item_id_list : List Nat) :
    Bool × List Action :=
  if screen_item_id_list.length = 0 then (true, [])
  else
    let screen_item_list := get_screen_items w screen_id
    if 0 < screen_item_list.length then (true, [Action.itemDeleteAll screen_item_id_list])
    else (false, [])

/-- `Screen.get_hsize_vsize`. Note: in the `len(hosts) > graphs_in_row`
branch the source computes `(len(hosts) // graphs_in_row + 1) * v_size`,
i.e. floor division plus one, not a ceiling. -/
def get_hsize_vsize (hosts : List Nat) (v_size graphs_in_row : Nat) : Nat × Nat :=
  let h_size := hosts.length
  if h_size = 1 then
    let h_size := if v_size ≤ graphs_in_row then v_size else graphs_in_row
    (h_size, (v_size - 1) / h_size + 1)
  else if graphs_in_row < hosts.length then
    (graphs_in_row, (hosts.length / graphs_in_row + 1) * v_size)
  else
    (h_size, v_size)

/-- Width defaulting at the top of `Screen.create_screen_items`:
500 when `len(hosts) < 4` else 200, unless a non-negative width is given. -/
def eff_width (hosts : List Nat) (width : Option Int) : Int :=
  if hosts.length < 4 then
    match width with
    | none => 500
    | some x => if x < 0 then 500 else x
  else
    match width with
    | none => 200
    | some x => if x < 0 then 200 else x

/-- Height defaulting in `Screen.create_screen_items`: 100 unless a
non-negative height is given. -/
def eff_height (height : Option Int) : Int :=
  match height with
  | none => 100
  | some x => if x < 0 then 100 else x

/-- `Screen.create_screen_items`: the ordered `screenitem.create` calls. -/
def create_screen_items (w : World) (screen_id : Nat) (hosts : List Nat)
    (graph_name_list : List ZName) (width height : Option Int)
    (h_size graphs_in_row : Nat) : List Action :=
  let wd := eff_width hosts width
  let ht := eff_height height
  if hosts.length = 1 then
    let graph_id_list := get_graphs_by_host_id w graph_name_list (hosts.headD 0)
    graph_id_list.enum.map (fun ig =>
      Action.itemCreate ⟨screen_id, ig.2, wd, ht, ig.1 % h_size, ig.1 / h_size, 1, 1⟩)
  else
    hosts.enum.flatMap (fun ih =>
      let graph_id_list := get_graphs_by_host_id w graph_name_list ih.2
      graph_id_list.enum.map (fun jg =>
        Action.itemCreate ⟨screen_id, jg.2, wd, ht, ih.1 % graphs_in_row,
          graph_id_list.length * (ih.1 / graphs_in_row) + jg.1, 1, 1⟩))

/-! ## `main`: per-screen reconciliation -/

/-- Lines 425-427 of `main`: resolve hosts from group ids, failing when the
returned host list is empty. -/
def resolve_hosts (w : World) (group_ids : List Nat) (sort : Bool) :
    Except String (List Nat) :=
  match get_host_ids_by_group_ids w group_ids sort with
  | .error e => .error e
  | .ok hosts =>
    if hosts = [] then .error "No hosts found belongin to all given groups"
    else .ok hosts

/-- The body of `main`'s `for zabbix_screen in screens` loop for one screen
entry: the write RPCs issued (in order) and how the entry is reported. -/
def processScreen (w : World) (s : ScreenSpec) : Except String (List Action × Outcome) :=
  match get_screen_id w s.screen_name with
  | .error e => .error e
  | .ok screen_id? =>
    match s.state with
    | .absent =>
      match screen_id? with
      | none => .ok ([], .unchanged)
      | some screen_id =>
        let screen_item_list := get_screen_items w screen_id
        let screen_item_id_list := screen_item_list.map (fun it => it.screenitemid)
        let d := delete_screen_items w screen_id screen_item_id_list
        .ok (d.2 ++ [Action.screenDelete screen_id], .deleted)
    | .present =>
      match get_host_group_ids w s.host_group with
      | .error e => .error e
      | .ok host_group_ids =>
        match resolve_hosts w host_group_ids s.sort with
        | .error e => .error e
        | .ok hosts =>
          let gv := get_graph_ids w hosts s.graph_names
          let hv := get_hsize_vsize hosts gv.2 s.graphs_in_row
          match screen_id? with
          | none =>
            let screen_id := w.nextid
            .ok (Action.screenCreate s.screen_name hv.1 hv.2 ::
              create_screen_items w screen_id hosts s.graph_names s.graph_width
                s.graph_height hv.1 s.graphs_in_row, .created)
          | some screen_id =>
            let screen_item_list := get_screen_items w screen_id
            let screen_item_id_list := screen_item_list.map (fun it => it.screenitemid)
            let resource_id_list := screen_item_list.map (fun it => it.resourceid)
            if gv.1 ≠ resource_id_list then
              let d := delete_screen_items w screen_id screen_item_id_list
              if d.1 then
                .ok (d.2 ++ Action.screenUpdate screen_id hv.1 hv.2 ::
                  create_screen_items w screen_id hosts s.graph_names s.graph_width
                    s.graph_height hv.1 s.graphs_in_row, .changed)
              else .ok (d.2, .unchanged)
            else .ok ([], .unchanged)

/-- Modelled from the spec: `LooseVersion` comparison (the class lives in
`plugins/module_utils/version.py`, outside the provided sources). Dotted
versions are numeric component lists compared lexicographically; `versionLe a
b` means version `a <= b`. -/
def versionLe : List Nat → List Nat → Bool
  | [], _ => true
  | _ :: _, [] => false
  | a :: as, b :: bs => if a < b then true else if a = b then versionLe as bs else false

/-- `main` after argument parsing: the compatibility gate
(`LooseVersion(api_version) >= LooseVersion('5.4')` is fatal), then each
screen entry processed in order against the remote state. -/
def runScreens (w : World) (api_version : List Nat) (screens : List ScreenSpec) :
    Except String (List (List Action × Outcome)) :=
  if versionLe [5, 4] api_version then
    .error "Zabbix 5.4 removed the Screens feature"
  else
    screens.mapM (processScreen w)

/-! ## Concrete example data (used by witnesses) -/

/-- A small remote state: group 1 (name `[1]`), monitored host 10 (name `[4]`)
in group 1, graph 100 (name `[7]`) on host 10, screen 50 (name `[3]`) holding
item 500 pointing at resource 100. -/
def exWorld : World :=
  { hostgroups := [⟨1, [1]⟩]
    hosts := [⟨10, [4], [1], true⟩]
    graphs := [⟨100, [7], 10⟩]
    screens := [⟨50, [3]⟩]
    screenitems := [⟨500, 50, 100⟩]
    nextid := 77 }

/-- A remote state whose only screen is named `[1, 2, 3]`. -/
def exWorldSearch : World :=
  { hostgroups := [], hosts := [], graphs := [], screens := [⟨7, [1, 2, 3]⟩]
    screenitems := [], nextid := 0 }

/-- A remote state with two groups and two hosts: host 10 is in groups 1 and
2, host 11 only in group 1; both monitored; two graphs on each host. -/
def exWorld2 : World :=
  { hostgroups := [⟨1, [1]⟩, ⟨2, [2]⟩]
    hosts := [⟨10, [4], [1, 2], true⟩, ⟨11, [5], [1], true⟩]
    graphs := [⟨100, [7], 10⟩, ⟨101, [8], 10⟩, ⟨110, [7], 11⟩, ⟨111, [8], 11⟩]
    screens := [⟨50, [3]⟩]
    screenitems := [⟨500, 50, 100⟩]
    nextid := 77 }

/-! ## Supporting lemmas -/

theorem length_pos_of_ne_nil {l : List Nat} (h : l ≠ []) : 1 ≤ l.length := by
  cases l with
  | nil => exact absurd rfl h
  | cons a rest => exact Nat.succ_le_succ (Nat.zero_le _)

/-- Branch equation: the single-host branch of `get_hsize_vsize`. -/
theorem get_hsize_vsize_single (hosts : List Nat) (v g : Nat) (h1 : hosts.length = 1) :
    get_hsize_vsize hosts v g = (min v g, (v - 1) / min v g + 1) := by
  simp only [get_hsize_vsize]
  rw [if_pos h1, ← Nat.min_def]

/-- Branch equation: the `len(hosts) > graphs_in_row` branch of
`get_hsize_vsize`. -/
theorem get_hsize_vsize_many (hosts : List Nat) (v g : Nat) (h1 : hosts.length ≠ 1)
    (h2 : g < hosts.length) :
    get_hsize_vsize hosts v g = (g, (hosts.length / g + 1) * v) := by
  simp only [get_hsize_vsize]
  rw [if_neg h1, if_pos h2]

/-- Branch equation: the remaining branch of `get_hsize_vsize`. -/
theorem get_hsize_vsize_mid (hosts : List Nat) (v g : Nat) (h1 : hosts.length ≠ 1)
    (h2 : ¬ g < hosts.length) :
    get_hsize_vsize hosts v g = (hosts.length, v) := by
  simp only [get_hsize_vsize]
  rw [if_neg h1, if_neg h2]

/-- The two dimensions returned by `get_hsize_vsize` are positive whenever the
host list is non-empty and both `v_size` and `graphs_in_row` are positive. -/
theorem get_hsize_vsize_pos (hosts : List Nat) (v g : Nat) (hh : hosts ≠ [])
    (hv : 1 ≤ v) (hg : 1 ≤ g) :
    1 ≤ (get_hsize_vsize hosts v g).1 ∧ 1 ≤ (get_hsize_vsize hosts v g).2 := by
  have hlen : 1 ≤ hosts.length := length_pos_of_ne_nil hh
  by_cases h1 : hosts.length = 1
  · rw [get_hsize_vsize_single hosts v g h1]
    refine ⟨?_, ?_⟩
    · show 1 ≤ min v g
      omega
    · show 1 ≤ (v - 1) / min v g + 1
      exact Nat.succ_le_succ (Nat.zero_le _)
  · by_cases h2 : g < hosts.length
    · rw [get_hsize_vsize_many hosts v g h1 h2]
      refine ⟨hg, ?_⟩
      show 1 ≤ (hosts.length / g + 1) * v
      exact Nat.mul_pos (Nat.succ_pos _) hv
    · rw [get_hsize_vsize_mid hosts v g h1 h2]
      exact ⟨hlen, hv⟩

/-- The accumulator invariant of `get_graph_ids_go`: the running `vsize` never
drops below its starting value. -/
theorem get_graph_ids_go_vsize_le (w : World) (gnl : List ZName) (hosts : List Nat) :
    ∀ acc v, v ≤ (get_graph_ids_go w gnl hosts acc v).2 := by
  induction hosts with
  | nil => intro acc v; simp [get_graph_ids_go]
  | cons host rest ih =>
    intro acc v
    simp only [get_graph_ids_go]
    by_cases h : 0 < (get_graphs_by_host_id w gnl host).length
    · rw [if_pos h]
      have h2 := ih (acc ++ get_graphs_by_host_id w gnl host)
        (if v < (get_graphs_by_host_id w gnl host).length
          then (get_graphs_by_host_id w gnl host).length else v)
      have h3 : v ≤ (if v < (get_graphs_by_host_id w gnl host).length
          then (get_graphs_by_host_id w gnl host).length else v) := by
        split_ifs <;> omega
      omega
    · rw [if_neg h]
      exact ih acc v

/-- If no host resolves any graph, `get_graph_ids_go` returns its accumulator
unchanged. -/
theorem get_graph_ids_go_all_empty (w : World) (gnl : List ZName) (hosts : List Nat)
    (hemp : ∀ h ∈ hosts, get_graphs_by_host_id w gnl h = []) :
    ∀ acc v, get_graph_ids_go w gnl hosts acc v = (acc, v) := by
  induction hosts with
  | nil => intro acc v; simp [get_graph_ids_go]
  | cons host rest ih =>
    intro acc v
    have h0 : get_graphs_by_host_id w gnl host = [] :=
      hemp host (List.mem_cons_self host rest)
    simp only [get_graph_ids_go, h0, List.length_nil, Nat.lt_irrefl, if_false]
    exact ih (fun h hm => hemp h (List.mem_cons_of_mem host hm)) acc v

/-- C1 counterexample: six hosts with `graphs_in_row = 3` and a per-host
maximum of 2 graphs. The claimed formula `ceil(hostCount / graphsPerRow) *
maxGraphsPerHost` gives `ceil(6/3) * 2 = 4` rows, but the source computes
`(6 // 3 + 1) * 2 = 6` rows. -/
theorem C1_counterexample :
    get_hsize_vsize [1, 2, 3, 4, 5, 6] 2 3 ≠ ((3 : Nat), ((6 + 3 - 1) / 3) * 2) := by
  decide

/-- C1 (amended): for `hostCount > graphsPerRow` (with a positive
`graphsPerRow`), the layout is `columns = graphsPerRow` and
`rows = (hostCount // graphsPerRow + 1) * maxGraphsPerHost` — floor division
plus one, which equals the claimed ceiling only when `graphsPerRow` does not
divide `hostCount`. -/
theorem C1_amended_theorem (hosts : List Nat) (v g : Nat) (hg : 0 < g)
    (hlen : g < hosts.length) :
    get_hsize_vsize hosts v g = (g, (hosts.length / g + 1) * v) :=
  get_hsize_vsize_many hosts v g (by omega) hlen

/-- C1 witness: the amended formula at 6 hosts, `graphs_in_row = 3`,
`maxGraphsPerHost = 2`. -/
theorem C1_amended_witness :
    get_hsize_vsize [1, 2, 3, 4, 5, 6] 2 3 = (3, ([1, 2, 3, 4, 5, 6].length / 3 + 1) * 2) :=
  C1_amended_theorem [1, 2, 3, 4, 5, 6] 2 3 (by decide) (by decide)

/-- C5: with a single host and positive `maxGraphsPerHost` and
`graphsPerRow`, the layout is `columns = min(maxGraphsPerHost, graphsPerRow)`
and `rows = ceil(maxGraphsPerHost / columns)`; in particular, when
`maxGraphsPerHost <= graphsPerRow`, one row of `maxGraphsPerHost` columns. -/
theorem C5_theorem (hosts : List Nat) (v g : Nat) (h1 : hosts.length = 1)
    (hv : 1 ≤ v) (hg : 1 ≤ g) :
    get_hsize_vsize hosts v g = (min v g, (v + min v g - 1) / min v g)
    ∧ (v ≤ g → get_hsize_vsize hosts v g = (v, 1)) := by
  have hm := get_hsize_vsize_single hosts v g h1
  have hmpos : 0 < min v g := by omega
  constructor
  · rw [hm]
    have hsub : v + min v g - 1 = (v - 1) + min v g := by omega
    rw [hsub, Nat.add_div_right _ hmpos]
  · intro hvg
    rw [hm, Nat.min_eq_left hvg, Nat.div_eq_of_lt (by omega : v - 1 < v)]

/-- C5 witness: one host, 5 graphs, 3 per row gives a 3 x 2 grid; 3 graphs,
3 per row gives a 3 x 1 grid. -/
theorem C5_witness :
    get_hsize_vsize [10] 5 3 = (min 5 3, (5 + min 5 3 - 1) / min 5 3)
    ∧ get_hsize_vsize [10] 3 3 = (3, 1) :=
  ⟨(C5_theorem [10] 5 3 (by decide) (by decide) (by decide)).1,
   (C5_theorem [10] 3 3 (by decide) (by decide) (by decide)).2 (by decide)⟩

/-- C8: whenever the reported API version is at least 5.4, the run fails
fatally with the feature-removed message before any screen is processed (no
action list is ever produced). -/
theorem C8_theorem (w : World) (ver : List Nat) (screens : List ScreenSpec)
    (h : versionLe [5, 4] ver = true) :
    runScreens w ver screens = .error "Zabbix 5.4 removed the Screens feature" := by
  simp [runScreens, h]

/-- C8 witness: version 5.4 itself is rejected. -/
theorem C8_witness :
    runScreens exWorld [5, 4] [] = .error "Zabbix 5.4 removed the Screens feature" :=
  C8_theorem exWorld [5, 4] [] (by decide)

/-- C10: `get_graph_ids` always reports a `vsize` of at least 1 (exactly 1
when no host resolves any graph), so with a non-empty host list and positive
`graphs_in_row` the screen dimensions computed from it are both positive. -/
theorem C10_theorem (w : World) (hosts : List Nat) (gnl : List ZName) (g : Nat) :
    1 ≤ (get_graph_ids w hosts gnl).2
    ∧ ((∀ h ∈ hosts, get_graphs_by_host_id w gnl h = []) →
        (get_graph_ids w hosts gnl).2 = 1)
    ∧ (hosts ≠ [] → 1 ≤ g →
        1 ≤ (get_hsize_vsize hosts (get_graph_ids w hosts gnl).2 g).1
        ∧ 1 ≤ (get_hsize_vsize hosts (get_graph_ids w hosts gnl).2 g).2) := by
  have hv : 1 ≤ (get_graph_ids w hosts gnl).2 :=
    get_graph_ids_go_vsize_le w gnl hosts [] 1
  refine ⟨hv, ?_, ?_⟩
  · intro hemp
    simp [get_graph_ids, get_graph_ids_go_all_empty w gnl hosts hemp]
  · intro hh hg
    exact get_hsize_vsize_pos hosts _ g hh hv hg

/-- C10 witness: positive dimensions at the hosts of `exWorld2`, a graph-name
list matching nothing, and `graphs_in_row = 3`. -/
theorem C10_witness :
    1 ≤ (get_hsize_vsize [10, 11] (get_graph_ids exWorld2 [10, 11] [[9]]).2 3).1
    ∧ 1 ≤ (get_hsize_vsize [10, 11] (get_graph_ids exWorld2 [10, 11] [[9]]).2 3).2 :=
  (C10_theorem exWorld2 [10, 11] [[9]] 3).2.2 (by decide) (by decide)

/-- `eff_width` falls back to the host-count default when the requested width
is unset or negative. -/
theorem eff_width_default (hosts : List Nat) (wd : Option Int)
    (h : wd = none ∨ ∃ x, wd = some x ∧ x < 0) :
    eff_width hosts wd = if hosts.length < 4 then 500 else 200 := by
  rcases h with rfl | ⟨x, rfl, hx⟩
  · rfl
  · simp only [eff_width]
    split_ifs <;> rfl

/-- `eff_width` honors any non-negative requested width. -/
theorem eff_width_explicit (hosts : List Nat) (x : Int) (hx : 0 ≤ x) :
    eff_width hosts (some x) = x := by
  simp only [eff_width]
  split_ifs <;> first | rfl | omega

/-- `eff_height` falls back to 100 when the requested height is unset or
negative. -/
theorem eff_height_default (ht : Option Int)
    (h : ht = none ∨ ∃ x, ht = some x ∧ x < 0) :
    eff_height ht = 100 := by
  rcases h with rfl | ⟨x, rfl, hx⟩
  · rfl
  · simp only [eff_height]
    rw [if_pos hx]

/-- `eff_height` honors any non-negative requested height. -/
theorem eff_height_explicit (x : Int) (hx : 0 ≤ x) : eff_height (some x) = x := by
  simp only [eff_height]
  rw [if_neg (by omega : ¬ x < 0)]

/-- Every `screenitem.create` issued by `create_screen_items` carries the
resolved width `eff_width hosts width` and height `eff_height height`. -/
theorem width_height_of_mem_create (w : World) (sid : Nat) (hosts : List Nat)
    (gnl : List ZName) (wd ht : Option Int) (hs gr : Nat) (d : ItemData)
    (hmem : Action.itemCreate d ∈ create_screen_items w sid hosts gnl wd ht hs gr) :
    d.width = eff_width hosts wd ∧ d.height = eff_height ht := by
  simp only [create_screen_items] at hmem
  split_ifs at hmem
  · rcases List.mem_map.mp hmem with ⟨ig, _, heq⟩
    injection heq with hdata
    rw [← hdata]
    exact ⟨rfl, rfl⟩
  · rcases List.mem_flatMap.mp hmem with ⟨ih, _, hmem2⟩
    rcases List.mem_map.mp hmem2 with ⟨jg, _, heq⟩
    injection heq with hdata
    rw [← hdata]
    exact ⟨rfl, rfl⟩

/-- C9: every created screen item uses cell width 500 when `hostCount < 4`
and 200 otherwise whenever the requested width is unset or negative, and any
non-negative requested width verbatim; its cell height is 100 whenever the
requested height is unset or negative, and any non-negative requested height
verbatim. -/
theorem C9_theorem (w : World) (sid : Nat) (hosts : List Nat) (gnl : List ZName)
    (wd ht : Option Int) (hs gr : Nat) (d : ItemData)
    (hmem : Action.itemCreate d ∈ create_screen_items w sid hosts gnl wd ht hs gr) :
    ((wd = none ∨ ∃ x, wd = some x ∧ x < 0) →
        d.width = if hosts.length < 4 then 500 else 200)
    ∧ (∀ x, wd = some x → 0 ≤ x → d.width = x)
    ∧ ((ht = none ∨ ∃ x, ht = some x ∧ x < 0) → d.height = 100)
    ∧ (∀ x, ht = some x → 0 ≤ x → d.height = x) := by
  obtain ⟨hw, hh⟩ := width_height_of_mem_create w sid hosts gnl wd ht hs gr d hmem
  refine ⟨?_, ?_, ?_, ?_⟩
  · intro hdef
    rw [hw, eff_width_default hosts wd hdef]
  · intro x hx hx0
    rw [hw, hx, eff_width_explicit hosts x hx0]
  · intro hdef
    rw [hh, eff_height_default ht hdef]
  · intro x hx hx0
    rw [hh, hx, eff_height_explicit x hx0]

/-- C9 witness: the single item created for `exWorld`'s host with no explicit
width gets the `hostCount < 4` default width. -/
theorem C9_witness :
    (⟨77, 100, 500, 100, 0, 0, 1, 1⟩ : ItemData).width
      = if ([10] : List Nat).length < 4 then 500 else 200 :=
  (C9_theorem exWorld 77 [10] [[7]] none none 1 3 ⟨77, 100, 500, 100, 0, 0, 1, 1⟩
    (by decide)).1 (Or.inl rfl)

/-- Insertion keeps exactly the elements. -/
theorem mem_insertByName (a h : ZHost) (l : List ZHost) :
    a ∈ insertByName h l ↔ a = h ∨ a ∈ l := by
  induction l with
  | nil => simp [insertByName]
  | cons h2 rest ih =>
    simp only [insertByName]
    split_ifs
    · simp only [List.mem_cons, ih]
      tauto
    · simp only [List.mem_cons]

/-- Sorting by name keeps exactly the elements. -/
theorem mem_sortHostsByName (a : ZHost) (l : List ZHost) :
    a ∈ sortHostsByName l ↔ a ∈ l := by
  induction l with
  | nil => simp [sortHostsByName]
  | cons h rest ih =>
    simp [sortHostsByName, mem_insertByName, ih]

/-- Membership in the ids mapped from the subset-filtered host list, for any
host list with the same members as the `host.get` answer. -/
theorem mem_filtered_ids_iff (w : World) (group_ids : List Nat) (L : List ZHost)
    (hne : group_ids ≠ [])
    (hL : ∀ h : ZHost, h ∈ L ↔ h ∈ host_get w group_ids) (hid : Nat) :
    hid ∈ (L.filter (fun h => group_ids.all (fun g => h.groups.contains g))).map
        (fun h => h.hostid)
      ↔ ∃ h, h ∈ w.hosts ∧ h.hostid = hid ∧ h.monitored = true ∧
          ∀ g ∈ group_ids, g ∈ h.groups := by
  constructor
  · intro hmem
    obtain ⟨h, hmf, hidh⟩ := List.mem_map.mp hmem
    obtain ⟨hmL, hall⟩ := List.mem_filter.mp hmf
    obtain ⟨hmw, hcond⟩ := List.mem_filter.mp ((hL h).mp hmL)
    simp only [Bool.and_eq_true] at hcond
    refine ⟨h, hmw, hidh, hcond.1, fun g hg => ?_⟩
    exact List.elem_iff.mp (List.all_eq_true.mp hall g hg)
  · rintro ⟨h, hmw, hidh, hmon, hall⟩
    apply List.mem_map.mpr
    refine ⟨h, List.mem_filter.mpr ⟨(hL h).mpr (List.mem_filter.mpr ⟨hmw, ?_⟩), ?_⟩, hidh⟩
    · simp only [Bool.and_eq_true]
      refine ⟨hmon, List.any_eq_true.mpr ?_⟩
      rcases group_ids with _ | ⟨g0, grest⟩
      · exact absurd rfl hne
      · exact ⟨g0, hall g0 (List.mem_cons_self g0 grest),
          List.elem_iff.mpr (List.mem_cons_self g0 grest)⟩
    · exact List.all_eq_true.mpr (fun g hg => List.elem_iff.mpr (hall g hg))

/-- Membership characterization for a successful
`get_host_ids_by_group_ids`: the returned ids are exactly the ids of
monitored hosts belonging to every requested group. -/
theorem mem_get_host_ids_iff (w : World) (group_ids : List Nat) (sort : Bool)
    (ids : List Nat) (hne : group_ids ≠ [])
    (hok : get_host_ids_by_group_ids w group_ids sort = .ok ids) (hid : Nat) :
    hid ∈ ids ↔ ∃ h, h ∈ w.hosts ∧ h.hostid = hid ∧ h.monitored = true ∧
      ∀ g ∈ group_ids, g ∈ h.groups := by
  simp only [get_host_ids_by_group_ids] at hok
  by_cases hemp : host_get w group_ids = []
  · rw [if_pos hemp] at hok
    exact absurd hok (by simp)
  · rw [if_neg hemp] at hok
    injection hok with hok
    rw [← hok]
    cases sort with
    | false =>
      exact mem_filtered_ids_iff w group_ids (host_get w group_ids) hne
        (fun h => Iff.rfl) hid
    | true =>
      exact mem_filtered_ids_iff w group_ids (sortHostsByName (host_get w group_ids)) hne
        (fun h => mem_sortHostsByName h (host_get w group_ids)) hid

/-- C3: with more than zero requested groups, the resolved host-id list of
the present path contains exactly the monitored hosts belonging to every
listed group (intersection semantics), and the run fails fatally when that
intersection is empty. -/
theorem C3_theorem (w : World) (group_ids : List Nat) (sort : Bool)
    (hne : group_ids ≠ []) :
    (∀ ids, resolve_hosts w group_ids sort = .ok ids →
        ids ≠ [] ∧ ∀ hid, hid ∈ ids ↔ ∃ h, h ∈ w.hosts ∧ h.hostid = hid ∧
          h.monitored = true ∧ ∀ g ∈ group_ids, g ∈ h.groups)
    ∧ ((¬ ∃ h, h ∈ w.hosts ∧ h.monitored = true ∧ ∀ g ∈ group_ids, g ∈ h.groups) →
        ∃ e, resolve_hosts w group_ids sort = .error e) := by
  constructor
  · intro ids hok
    unfold resolve_hosts at hok
    split at hok
    · exact absurd hok (by simp)
    · next ids0 heq =>
      split_ifs at hok with hz
      injection hok with hok
      subst hok
      exact ⟨hz, fun hid => mem_get_host_ids_iff w group_ids sort ids0 hne heq hid⟩
  · intro hno
    cases hg : get_host_ids_by_group_ids w group_ids sort with
    | error e =>
      refine ⟨e, ?_⟩
      unfold resolve_hosts
      rw [hg]
    | ok ids0 =>
      have hz : ids0 = [] := by
        by_contra hnz
        obtain ⟨hid, hmem⟩ := List.exists_mem_of_ne_nil ids0 hnz
        obtain ⟨h, hhm, _, hmon, hall⟩ :=
          (mem_get_host_ids_iff w group_ids sort ids0 hne hg hid).mp hmem
        exact hno ⟨h, hhm, hmon, hall⟩
      refine ⟨"No hosts found belongin to all given groups", ?_⟩
      unfold resolve_hosts
      rw [hg]
      show (if ids0 = [] then Except.error "No hosts found belongin to all given groups"
        else Except.ok ids0)
          = Except.error "No hosts found belongin to all given groups"
      rw [if_pos hz]

/-- C3 witness: in `exWorld2` (host 10 in groups 1 and 2, host 11 only in
group 1), requesting groups `[1, 2]` resolves exactly host 10; host 11 is
excluded. -/
theorem C3_witness :
    (10 ∈ [10] ↔ ∃ h, h ∈ exWorld2.hosts ∧ h.hostid = 10 ∧ h.monitored = true ∧
      ∀ g ∈ [1, 2], g ∈ h.groups)
    ∧ (11 ∈ [10] ↔ ∃ h, h ∈ exWorld2.hosts ∧ h.hostid = 11 ∧ h.monitored = true ∧
      ∀ g ∈ [1, 2], g ∈ h.groups) :=
  ⟨((C3_theorem exWorld2 [1, 2] false (by decide)).1 [10] (by rfl)).2 10,
   ((C3_theorem exWorld2 [1, 2] false (by decide)).1 [10] (by rfl)).2 11⟩

/-- C4 counterexample: with a single remote screen named `[1, 2, 3]`,
looking up the name `[1, 2]` returns that screen's id even though no screen
is named `[1, 2]` — the lookup is a substring search, not an exact match. -/
theorem C4_counterexample :
    get_screen_id exWorldSearch [1, 2] = .ok (some 7)
    ∧ ∀ s ∈ exWorldSearch.screens, s.name ≠ [1, 2] :=
  ⟨rfl, by decide⟩

/-- C4 (amended): for a non-empty requested name, `get_screen_id` returns
the id of the FIRST remote screen whose name CONTAINS the requested name as
a substring (`none` when no screen name contains it); equality of names is
not required. -/
theorem C4_amended_theorem (w : World) (n : ZName) (hn : n ≠ []) :
    get_screen_id w n
      = .ok ((w.screens.find? (fun s => isSubstrOf n s.name)).map (fun s => s.screenid)) := by
  simp only [get_screen_id, screen_get_search]
  rw [if_neg hn, ← List.filter_head? (fun s => isSubstrOf n s.name) w.screens]
  cases List.filter (fun s => isSubstrOf n s.name) w.screens with
  | nil => rfl
  | cons s rest => rfl

/-- C4 witness: the amended lookup at `exWorldSearch` and name `[1, 2]`. -/
theorem C4_amended_witness :
    get_screen_id exWorldSearch [1, 2]
      = .ok ((exWorldSearch.screens.find? (fun s => isSubstrOf [1, 2] s.name)).map
          (fun s => s.screenid)) :=
  C4_amended_theorem exWorldSearch [1, 2] (by decide)

/-- C2: on the present path with an existing screen, if the freshly resolved
graph-id sequence equals the resource-id sequence of the currently attached
items, no write is issued and the screen is reported unchanged. The width,
height and graphs-in-row parameters `gw`, `gh`, `gir` are arbitrary and do
not occur in the equality hypothesis, so changing only them still causes no
write. -/
theorem C2_theorem (w : World) (name : ZName) (hgl : List ZName) (gn : List ZName)
    (gw gh : Option Int) (gir : Nat) (srt : Bool) (sid : Nat) (gids : List Nat)
    (hosts : List Nat)
    (hscr : get_screen_id w name = .ok (some sid))
    (hgrp : get_host_group_ids w hgl = .ok gids)
    (hhost : resolve_hosts w gids srt = .ok hosts)
    (heq : (get_graph_ids w hosts gn).1
      = (get_screen_items w sid).map (fun it => it.resourceid)) :
    processScreen w ⟨name, hgl, .present, gn, gw, gh, gir, srt⟩ = .ok ([], .unchanged) := by
  simp only [processScreen, hscr, hgrp, hhost, heq]
  simp

/-- C2 witness: in `exWorld` the screen's single item already points at the
resolved graph, so changing width, height and graphs-in-row alone yields no
write. -/
theorem C2_witness :
    processScreen exWorld ⟨[3], [[1]], .present, [[7]], some 9, some 8, 1, false⟩
      = .ok ([], .unchanged) :=
  C2_theorem exWorld [3] [[1]] [[7]] (some 9) (some 8) 1 false 50 [1] [10]
    (by rfl) (by rfl) (by rfl) (by rfl)

/-- The write actions of `delete_screen_items` on the item ids of a screen:
nothing when the screen has no items, one bulk `screenitem.delete` call
otherwise. -/
theorem delete_screen_items_acts (w : World) (sid : Nat) :
    (delete_screen_items w sid
        ((get_screen_items w sid).map (fun it => it.screenitemid))).2
      = if get_screen_items w sid = [] then []
        else [Action.itemDeleteAll
          ((get_screen_items w sid).map (fun it => it.screenitemid))] := by
  by_cases hit : get_screen_items w sid = []
  · rw [if_pos hit, hit]
    rfl
  · rw [if_neg hit]
    have h1 : ¬ ((get_screen_items w sid).map (fun it => it.screenitemid)).length = 0 := by
      simp only [List.length_map]
      intro h
      exact hit (List.eq_nil_of_length_eq_zero h)
    have h2 : 0 < (get_screen_items w sid).length := by
      cases hge : get_screen_items w sid with
      | nil => exact absurd hge hit
      | cons a l => simp
    show (if ((get_screen_items w sid).map (fun it => it.screenitemid)).length = 0
        then ((true : Bool), ([] : List Action))
        else if 0 < (get_screen_items w sid).length
          then (true, [Action.itemDeleteAll
            ((get_screen_items w sid).map (fun it => it.screenitemid))])
          else (false, [])).2
      = [Action.itemDeleteAll ((get_screen_items w sid).map (fun it => it.screenitemid))]
    rw [if_neg h1, if_pos h2]

/-- C7: on the absent path, a missing screen is a success no-op with no write
actions; an existing screen has its items deleted first (a no-op when it has
none) and the screen deleted afterwards; and deleting an empty item-id list
is a success no-op. -/
theorem C7_theorem (w : World) (s : ScreenSpec) (sid : Nat) (habs : s.state = .absent) :
    (get_screen_id w s.screen_name = .ok none → processScreen w s = .ok ([], .unchanged))
    ∧ (get_screen_id w s.screen_name = .ok (some sid) →
        processScreen w s = .ok ((if get_screen_items w sid = [] then []
            else [Action.itemDeleteAll
              ((get_screen_items w sid).map (fun it => it.screenitemid))])
          ++ [Action.screenDelete sid], .deleted))
    ∧ delete_screen_items w sid [] = (true, []) := by
  refine ⟨?_, ?_, rfl⟩
  · intro hnone
    simp only [processScreen, hnone, habs]
  · intro hsome
    simp only [processScreen, hsome, habs, delete_screen_items_acts w sid]

/-- C7 witness: deleting `exWorld`'s screen 50 removes its one item first,
then the screen. -/
theorem C7_witness :
    processScreen exWorld ⟨[3], [[1]], .absent, [[7]], none, none, 3, false⟩
      = .ok ((if get_screen_items exWorld 50 = [] then []
          else [Action.itemDeleteAll
            ((get_screen_items exWorld 50).map (fun it => it.screenitemid))])
        ++ [Action.screenDelete 50], .deleted) :=
  (C7_theorem exWorld ⟨[3], [[1]], .absent, [[7]], none, none, 3, false⟩ 50 rfl).2.1 (by rfl)

/-- C6: deterministic zero-based placement. Single-host case: the i-th
resolved graph is the i-th created item, at `x = i mod columns`,
`y = i div columns`, colspan = rowspan = 1. Multi-host case: the j-th graph
resolved for host index i yields an item at `x = i mod graphs_in_row`,
`y = graphCountForHost * (i div graphs_in_row) + j`; the total item count is
the sum of per-host graph counts, so hosts with zero resolved graphs consume
a host index but contribute no items. -/
theorem C6_theorem (w : World) (sid : Nat) (hosts : List Nat) (gnl : List ZName)
    (wd ht : Option Int) (hs gr : Nat) :
    (∀ h, hosts = [h] → ∀ i (hi : i < (get_graphs_by_host_id w gnl h).length),
      (create_screen_items w sid hosts gnl wd ht hs gr).get? i
        = some (Action.itemCreate ⟨sid, (get_graphs_by_host_id w gnl h).get ⟨i, hi⟩,
            eff_width hosts wd, eff_height ht, i % hs, i / hs, 1, 1⟩))
    ∧ (hosts.length ≠ 1 → ∀ i (hi : i < hosts.length), ∀ j
        (hj : j < (get_graphs_by_host_id w gnl (hosts.get ⟨i, hi⟩)).length),
        Action.itemCreate ⟨sid,
            (get_graphs_by_host_id w gnl (hosts.get ⟨i, hi⟩)).get ⟨j, hj⟩,
            eff_width hosts wd, eff_height ht, i % gr,
            (get_graphs_by_host_id w gnl (hosts.get ⟨i, hi⟩)).length * (i / gr) + j, 1, 1⟩
          ∈ create_screen_items w sid hosts gnl wd ht hs gr)
    ∧ (hosts.length ≠ 1 →
        (create_screen_items w sid hosts gnl wd ht hs gr).length
          = (hosts.map (fun h => (get_graphs_by_host_id w gnl h).length)).sum) := by
  refine ⟨?_, ?_, ?_⟩
  · rintro h rfl i hi
    simp only [create_screen_items]
    rw [if_pos (show ([h] : List Nat).length = 1 from rfl)]
    rw [show ([h] : List Nat).headD 0 = h from rfl]
    rw [List.get?_map, List.get?_enum, List.get?_eq_get hi]
    rfl
  · intro hne i hi j hj
    simp only [create_screen_items]
    rw [if_neg hne]
    apply List.mem_flatMap.mpr
    refine ⟨(i, hosts.get ⟨i, hi⟩), ?_, ?_⟩
    · exact List.mk_mem_enum_iff_get?.mpr (List.get?_eq_get hi)
    · apply List.mem_map.mpr
      refine ⟨(j, (get_graphs_by_host_id w gnl (hosts.get ⟨i, hi⟩)).get ⟨j, hj⟩), ?_, rfl⟩
      exact List.mk_mem_enum_iff_get?.mpr (List.get?_eq_get hj)
  · intro hne
    simp only [create_screen_items]
    rw [if_neg hne]
    rw [List.length_flatMap]
    simp only [Function.comp_def, List.length_map, List.enum_length]
    conv_rhs => rw [← List.enum_map_snd hosts, List.map_map]
    rfl

/-- C6 witness: the single item of `exWorld`'s host at index 0, and in
`exWorld2` the first graph of the host at index 1. -/
theorem C6_witness :
    (create_screen_items exWorld 77 [10] [[7]] none none 1 3).get? 0
      = some (Action.itemCreate ⟨77,
          (get_graphs_by_host_id exWorld [[7]] 10).get ⟨0, by decide⟩,
          eff_width [10] none, eff_height none, 0 % 1, 0 / 1, 1, 1⟩)
    ∧ Action.itemCreate ⟨77,
          (get_graphs_by_host_id exWorld2 [[7]] (([10, 11] : List Nat).get ⟨1, by decide⟩)).get
            ⟨0, by decide⟩,
          eff_width [10, 11] none, eff_height none, 1 % 3,
          (get_graphs_by_host_id exWorld2 [[7]]
            (([10, 11] : List Nat).get ⟨1, by decide⟩)).length * (1 / 3) + 0, 1, 1⟩
        ∈ create_screen_items exWorld2 77 [10, 11] [[7]] none none 2 3 :=
  ⟨(C6_theorem exWorld 77 [10] [[7]] none none 1 3).1 10 rfl 0 (by decide),
   (C6_theorem exWorld2 77 [10, 11] [[7]] none none 2 3).2.1 (by decide) 1 (by decide) 0
     (by decide)⟩

end ZabbixScreen
